import Mathlib

/-!
# Verification of the hospitalist compensation engine

Shallow embedding of `calculate_compensation` from
`src/hospitalist_calculator.py`.  Python floats are modelled as exact
rationals (`ℚ`), Python `date` values as integer day offsets on the calendar
line, normalised so that 2026-07-01 (the fiscal year start) is day 0, and
Python dicts as association lists with first-match lookup and
replace-or-append assignment.
-/

namespace HospitalistCalc

/-- 2026-07-01 as a day offset. -/
def FISCAL_YEAR_START : ℤ := 0

/-- 2027-06-30 as a day offset from 2026-07-01 (364 days later). -/
def FISCAL_YEAR_END : ℤ := 364

/-- `(FISCAL_YEAR_END - FISCAL_YEAR_START).days + 1`. -/
def TOTAL_FY_DAYS : ℤ := FISCAL_YEAR_END - FISCAL_YEAR_START + 1

/-- Calendar year of `FISCAL_YEAR_START` (2026), used for experience years. -/
def FISCAL_YEAR_START_YEAR : ℤ := 2026

def BASE_SHIFT_EQUIVALENTS : ℚ := 183

def STRENGTH_OF_SCHEDULE_BASE : ℚ := 198500

def EXPERIENCE_ADJUSTMENT_PER_YEAR : ℚ := 2000

/-- Always uses the Assistant base for the B subtraction. -/
def A_BASE_FOR_B_CALC : ℚ := 105000

def OTHER_DEPT_RATE : ℚ := 240000

def ADDICTION_BOARD_BONUS : ℚ := 20000

/-- The rank table `A_COMPONENT_BY_RANK` as an association list. -/
def A_COMPONENT_BY_RANK : List (String × ℚ) :=
  [("Assistant Professor", 105000),
   ("Associate Professor", 120750),
   ("Professor", 136500),
   ("TFP NFP Physician", 105000)]

/-- One entry of the `SHIFT_TYPES` table: `{"ratio": r, "sos": s}`. -/
structure ShiftConfig where
  ratio : ℚ
  sos : ℚ
deriving DecidableEq

/-- The `SHIFT_TYPES` catalog. -/
def SHIFT_TYPES : List (String × ShiftConfig) :=
  [("Teaching", ⟨1, 1⟩),
   ("Direct Care Days", ⟨1, 5/4⟩),
   ("Women & Families Days", ⟨6/5, 5/4⟩),
   ("Episcopal", ⟨3/4, 21/20⟩),
   ("Clinic", ⟨9/10, 9/8⟩),
   ("Addiction", ⟨1, 1⟩)]

def NIGHT_STANDARD_THRESHOLD : ℚ := 21

def NIGHT_STANDARD_SOS : ℚ := 3/2

def NIGHT_PREMIUM_SOS : ℚ := 7/4

/-- First-match lookup in an association list (Python dict lookup). -/
def getOpt {α : Type} : List (String × α) → String → Option α
  | [], _ => none
  | (k, v) :: rest, key => if k = key then some v else getOpt rest key

/-- Python's `dict.get(key, default)`. -/
def dictGetD (l : List (String × ℚ)) (key : String) (default : ℚ) : ℚ :=
  (getOpt l key).getD default

/-- One row of the shift breakdown dict:
`{"days": d, "shift_eq": e, "sos_value": s}`. -/
structure ShiftRow where
  days : ℚ
  shift_eq : ℚ
  sos_value : ℚ
deriving DecidableEq

/-- Python dict assignment `d[k] = v`: replace the binding in place if the
key is present, otherwise append it. -/
def dictInsert : List (String × ShiftRow) → String → ShiftRow → List (String × ShiftRow)
  | [], key, v => [(key, v)]
  | (k, w) :: rest, key, v =>
      if k = key then (key, v) :: rest else (k, w) :: dictInsert rest key v

/-- The loop state of Step 3: breakdown dict and the two accumulators. -/
structure Accum where
  breakdown : List (String × ShiftRow)
  total_sos_value : ℚ
  total_shift_eq : ℚ
deriving DecidableEq

/-- Body of the `for shift_type, days in shift_days.items()` loop. -/
def processShift (acc : Accum) (item : String × ℚ) : Accum :=
  if item.1 = "Nights" ∨ item.1 = "Addiction" then acc
  else
    match getOpt SHIFT_TYPES item.1 with
    | none => acc
    | some config =>
        { breakdown := dictInsert acc.breakdown item.1
            { days := item.2
              shift_eq := item.2 * config.ratio
              sos_value := item.2 * config.ratio * config.sos }
          total_sos_value := acc.total_sos_value + item.2 * config.ratio * config.sos
          total_shift_eq := acc.total_shift_eq + item.2 * config.ratio }

/-- The whole Step 3 loop, starting from the empty breakdown. -/
def shiftLoop (shift_days : List (String × ℚ)) : Accum :=
  shift_days.foldl processShift ⟨[], 0, 0⟩

/-- Step 4: tiered night pay, run only when `night_days > 0`. -/
def nightsStep (night_days : ℚ) (acc : Accum) : Accum :=
  if 0 < night_days then
    { breakdown :=
        dictInsert
          (dictInsert acc.breakdown "Standard Nights (first 21)"
            { days := min night_days NIGHT_STANDARD_THRESHOLD
              shift_eq := min night_days NIGHT_STANDARD_THRESHOLD
              sos_value := min night_days NIGHT_STANDARD_THRESHOLD * NIGHT_STANDARD_SOS })
          "Premium Nights (after 21)"
          { days := max 0 (night_days - NIGHT_STANDARD_THRESHOLD)
            shift_eq := max 0 (night_days - NIGHT_STANDARD_THRESHOLD)
            sos_value := max 0 (night_days - NIGHT_STANDARD_THRESHOLD) * NIGHT_PREMIUM_SOS }
      total_sos_value := acc.total_sos_value +
        (min night_days NIGHT_STANDARD_THRESHOLD * NIGHT_STANDARD_SOS +
          max 0 (night_days - NIGHT_STANDARD_THRESHOLD) * NIGHT_PREMIUM_SOS)
      total_shift_eq := acc.total_shift_eq + night_days }
  else acc

/-- Python's `int(...)` on a float: truncation toward zero. -/
def int_trunc (q : ℚ) : ℤ := if 0 ≤ q then ⌊q⌋ else ⌈q⌉

/-- Python's built-in `round(...)` on a float: round half to even. -/
def py_round (q : ℚ) : ℤ :=
  if q - ⌊q⌋ < 1/2 then ⌊q⌋
  else if 1/2 < q - ⌊q⌋ then ⌊q⌋ + 1
  else if (⌊q⌋ : ℤ) % 2 = 0 then ⌊q⌋ else ⌊q⌋ + 1

/-- The three date cases of Step 1. -/
def daysInFY (start_date : ℤ) : ℤ :=
  if start_date ≤ FISCAL_YEAR_START then TOTAL_FY_DAYS
  else if FISCAL_YEAR_END < start_date then 0
  else FISCAL_YEAR_END - start_date + 1

/-- Arguments of `calculate_compensation`. -/
structure EmploymentInput where
  start_date : ℤ
  leave_days : ℤ
  status_fte : ℚ
  non_clinical_fte : ℚ
  other_dept_fte : ℚ
  academic_rank : String
  shift_days : List (String × ℚ)
  graduation_year : ℤ
  addiction_board_certified : Bool
  other_stipend : ℚ
deriving DecidableEq

/-- The `CalculationResult` dataclass. -/
structure CalculationResult where
  time_fraction : ℚ
  hm_fte : ℚ
  hospitalist_fte : ℚ
  clinical_fte : ℚ
  shift_equivalents : ℚ
  addiction_fte : ℚ
  shift_breakdown : List (String × ShiftRow)
  total_sos_value : ℚ
  sos_multiplier : ℚ
  a_component : ℚ
  a_fte_adjusted : ℚ
  b_base : ℚ
  b_adjusted : ℚ
  experience_years : ℤ
  experience_adjustment : ℚ
  b_with_experience : ℚ
  b_fte_adjusted : ℚ
  other_dept_comp : ℚ
  addiction_board_bonus : ℚ
  other_stipend : ℚ
  total_compensation : ℚ
deriving DecidableEq

/-- Shallow embedding of `calculate_compensation`. -/
def calculate_compensation (inp : EmploymentInput) : CalculationResult :=
  let days_in_fy := daysInFY inp.start_date
  let effective_days := max 0 (days_in_fy - inp.leave_days)
  let time_fraction : ℚ := (effective_days : ℚ) / (TOTAL_FY_DAYS : ℚ)
  let addiction_shifts := dictGetD inp.shift_days "Addiction" 0
  let addiction_fte := addiction_shifts / BASE_SHIFT_EQUIVALENTS
  let hm_fte := max 0 (inp.status_fte - inp.other_dept_fte - addiction_fte)
  let actual_hm_fte :=
    max 0 (inp.status_fte - inp.non_clinical_fte - inp.other_dept_fte - addiction_fte)
  let clinical_fte := actual_hm_fte * time_fraction
  let shift_equivalents : ℚ :=
    (int_trunc (clinical_fte * BASE_SHIFT_EQUIVALENTS + 1/2) : ℚ)
  let acc := nightsStep (dictGetD inp.shift_days "Nights" 0) (shiftLoop inp.shift_days)
  let sos_multiplier :=
    if 0 < shift_equivalents then acc.total_sos_value / shift_equivalents else 1
  let a_component := (getOpt A_COMPONENT_BY_RANK inp.academic_rank).getD 105000
  let a_fte_adjusted := a_component * inp.status_fte
  let b_base := STRENGTH_OF_SCHEDULE_BASE
  let b_adjusted := b_base * sos_multiplier
  let experience_years := max 0 (FISCAL_YEAR_START_YEAR - inp.graduation_year)
  let experience_adjustment := (experience_years : ℚ) * EXPERIENCE_ADJUSTMENT_PER_YEAR
  let b_with_experience := b_adjusted + experience_adjustment
  let b_fte_adjusted : ℚ :=
    (py_round ((b_with_experience * hm_fte - A_BASE_FOR_B_CALC * inp.status_fte) / 100) : ℚ) * 100
  let other_dept_comp := (addiction_fte + inp.other_dept_fte) * OTHER_DEPT_RATE * time_fraction
  let addiction_board_bonus_val :=
    if inp.addiction_board_certified then ADDICTION_BOARD_BONUS * inp.status_fte * time_fraction
    else 0
  let total_compensation :=
    a_fte_adjusted + b_fte_adjusted + other_dept_comp + addiction_board_bonus_val +
      inp.other_stipend
  { time_fraction := time_fraction
    hm_fte := hm_fte
    hospitalist_fte := actual_hm_fte
    clinical_fte := clinical_fte
    shift_equivalents := shift_equivalents
    addiction_fte := addiction_fte
    shift_breakdown := acc.breakdown
    total_sos_value := acc.total_sos_value
    sos_multiplier := sos_multiplier
    a_component := a_component
    a_fte_adjusted := a_fte_adjusted
    b_base := b_base
    b_adjusted := b_adjusted
    experience_years := experience_years
    experience_adjustment := experience_adjustment
    b_with_experience := b_with_experience
    b_fte_adjusted := b_fte_adjusted
    other_dept_comp := other_dept_comp
    addiction_board_bonus := addiction_board_bonus_val
    other_stipend := inp.other_stipend
    total_compensation := total_compensation }

/-- Sum of the `sos_value` fields of a breakdown dict. -/
def sumSos (l : List (String × ShiftRow)) : ℚ :=
  (l.map fun p => p.2.sos_value).sum

/-- The spec's round-half-away-from-zero on a rational. -/
def roundHalfAwayFromZero (q : ℚ) : ℤ :=
  if 0 ≤ q then ⌊q + 1/2⌋ else ⌈q - 1/2⌉

/-- The spec's `round_to_nearest_100`: round-half-away-from-zero at the
hundreds scale. -/
def round_to_nearest_100 (q : ℚ) : ℚ :=
  (roundHalfAwayFromZero (q / 100) : ℚ) * 100

/-! ## Concrete inputs used by witnesses and counterexamples -/

/-- Full-year Assistant Professor at 0.75 status FTE, 54 years of experience,
no scheduled shifts: the raw B value is exactly 2250, an odd half at the
hundreds scale. -/
def exInputC1 : EmploymentInput :=
  { start_date := 0
    leave_days := 0
    status_fte := 3/4
    non_clinical_fte := 0
    other_dept_fte := 0
    academic_rank := "Assistant Professor"
    shift_days := []
    graduation_year := 1972
    addiction_board_certified := false
    other_stipend := 0 }

/-- Status FTE chosen so that `clinical_fte * 183` is exactly 36.5. -/
def exInputC2 : EmploymentInput :=
  { start_date := 0
    leave_days := 0
    status_fte := 73/366
    non_clinical_fte := 0
    other_dept_fte := 0
    academic_rank := "Assistant Professor"
    shift_days := []
    graduation_year := 2026
    addiction_board_certified := false
    other_stipend := 0 }

/-- 28 night shifts: 21 standard and 7 premium. -/
def exInputC3 : EmploymentInput :=
  { start_date := 0
    leave_days := 0
    status_fte := 1
    non_clinical_fte := 0
    other_dept_fte := 0
    academic_rank := "Assistant Professor"
    shift_days := [("Teaching", 182), ("Nights", 28)]
    graduation_year := 2026
    addiction_board_certified := false
    other_stipend := 0 }

/-- Zero status FTE and all shift days zero: zero shift equivalents. -/
def exInputC4 : EmploymentInput :=
  { start_date := 0
    leave_days := 0
    status_fte := 0
    non_clinical_fte := 0
    other_dept_fte := 0
    academic_rank := "Assistant Professor"
    shift_days := [("Teaching", 0), ("Nights", 0), ("Addiction", 0)]
    graduation_year := 2026
    addiction_board_certified := false
    other_stipend := 0 }

/-- An academic rank that is not in the rank table. -/
def exInputC5 : EmploymentInput :=
  { start_date := 0
    leave_days := 0
    status_fte := 1
    non_clinical_fte := 0
    other_dept_fte := 0
    academic_rank := "Nonexistent Rank"
    shift_days := []
    graduation_year := 2026
    addiction_board_certified := false
    other_stipend := 0 }

/-- Nine addiction days and mixed FTE fractions. -/
def exInputC6 : EmploymentInput :=
  { start_date := 0
    leave_days := 0
    status_fte := 1
    non_clinical_fte := 1/10
    other_dept_fte := 1/5
    academic_rank := "Professor"
    shift_days := [("Addiction", 9)]
    graduation_year := 2020
    addiction_board_certified := true
    other_stipend := 0 }

/-- A mid-year start date, 100 days after the fiscal year start. -/
def exInputC7 : EmploymentInput :=
  { start_date := 100
    leave_days := 10
    status_fte := 1
    non_clinical_fte := 0
    other_dept_fte := 0
    academic_rank := "Assistant Professor"
    shift_days := []
    graduation_year := 2026
    addiction_board_certified := false
    other_stipend := 0 }

/-- A mixed schedule with distinct shift-type keys. -/
def exInputC8 : EmploymentInput :=
  { start_date := 0
    leave_days := 0
    status_fte := 1
    non_clinical_fte := 0
    other_dept_fte := 0
    academic_rank := "Associate Professor"
    shift_days := [("Teaching", 42), ("Direct Care Days", 80), ("Clinic", 10),
      ("Nights", 25), ("Addiction", 5)]
    graduation_year := 2010
    addiction_board_certified := false
    other_stipend := 1000 }

/-- Zero status FTE but half an FTE in another department. -/
def exInputC9 : EmploymentInput :=
  { start_date := 0
    leave_days := 0
    status_fte := 0
    non_clinical_fte := 0
    other_dept_fte := 1/2
    academic_rank := "Assistant Professor"
    shift_days := []
    graduation_year := 2026
    addiction_board_certified := false
    other_stipend := 1000 }

/-- Zero status FTE, no other-department FTE, no addiction days. -/
def exInputC9b : EmploymentInput :=
  { start_date := 0
    leave_days := 0
    status_fte := 0
    non_clinical_fte := 0
    other_dept_fte := 0
    academic_rank := "Professor"
    shift_days := [("Teaching", 5)]
    graduation_year := 2000
    addiction_board_certified := true
    other_stipend := 750 }

/-- Base input for the unrecognized-key insensitivity witness. -/
def exInputC10 : EmploymentInput :=
  { start_date := 0
    leave_days := 0
    status_fte := 1
    non_clinical_fte := 0
    other_dept_fte := 0
    academic_rank := "Assistant Professor"
    shift_days := [("Teaching", 70), ("Nights", 28)]
    graduation_year := 2015
    addiction_board_certified := false
    other_stipend := 0 }

/-! ## Field unfolding lemmas

Each lemma restates one field of the result record in terms of the embedded
source expressions; all hold by definitional unfolding. -/

theorem calc_time_fraction (inp : EmploymentInput) :
    (calculate_compensation inp).time_fraction =
      ((max 0 (daysInFY inp.start_date - inp.leave_days) : ℤ) : ℚ) / ((TOTAL_FY_DAYS : ℤ) : ℚ) :=
  rfl

theorem calc_addiction_fte (inp : EmploymentInput) :
    (calculate_compensation inp).addiction_fte =
      dictGetD inp.shift_days "Addiction" 0 / BASE_SHIFT_EQUIVALENTS :=
  rfl

theorem calc_hm_fte (inp : EmploymentInput) :
    (calculate_compensation inp).hm_fte =
      max 0 (inp.status_fte - inp.other_dept_fte - (calculate_compensation inp).addiction_fte) :=
  rfl

theorem calc_hospitalist_fte (inp : EmploymentInput) :
    (calculate_compensation inp).hospitalist_fte =
      max 0 (inp.status_fte - inp.non_clinical_fte - inp.other_dept_fte -
        (calculate_compensation inp).addiction_fte) :=
  rfl

theorem calc_clinical_fte (inp : EmploymentInput) :
    (calculate_compensation inp).clinical_fte =
      (calculate_compensation inp).hospitalist_fte * (calculate_compensation inp).time_fraction :=
  rfl

theorem calc_shift_equivalents (inp : EmploymentInput) :
    (calculate_compensation inp).shift_equivalents =
      (int_trunc ((calculate_compensation inp).clinical_fte * BASE_SHIFT_EQUIVALENTS + 1/2) : ℚ) :=
  rfl

theorem calc_shift_breakdown (inp : EmploymentInput) :
    (calculate_compensation inp).shift_breakdown =
      (nightsStep (dictGetD inp.shift_days "Nights" 0) (shiftLoop inp.shift_days)).breakdown :=
  rfl

theorem calc_total_sos_value (inp : EmploymentInput) :
    (calculate_compensation inp).total_sos_value =
      (nightsStep (dictGetD inp.shift_days "Nights" 0) (shiftLoop inp.shift_days)).total_sos_value :=
  rfl

theorem calc_sos_multiplier (inp : EmploymentInput) :
    (calculate_compensation inp).sos_multiplier =
      if 0 < (calculate_compensation inp).shift_equivalents then
        (calculate_compensation inp).total_sos_value / (calculate_compensation inp).shift_equivalents
      else 1 :=
  rfl

theorem calc_a_component (inp : EmploymentInput) :
    (calculate_compensation inp).a_component =
      (getOpt A_COMPONENT_BY_RANK inp.academic_rank).getD 105000 :=
  rfl

theorem calc_a_fte_adjusted (inp : EmploymentInput) :
    (calculate_compensation inp).a_fte_adjusted =
      (calculate_compensation inp).a_component * inp.status_fte :=
  rfl

theorem calc_b_with_experience (inp : EmploymentInput) :
    (calculate_compensation inp).b_with_experience =
      STRENGTH_OF_SCHEDULE_BASE * (calculate_compensation inp).sos_multiplier +
        ((max 0 (FISCAL_YEAR_START_YEAR - inp.graduation_year) : ℤ) : ℚ) *
          EXPERIENCE_ADJUSTMENT_PER_YEAR :=
  rfl

theorem calc_b_fte_adjusted (inp : EmploymentInput) :
    (calculate_compensation inp).b_fte_adjusted =
      (py_round (((calculate_compensation inp).b_with_experience *
          (calculate_compensation inp).hm_fte -
          A_BASE_FOR_B_CALC * inp.status_fte) / 100) : ℚ) * 100 :=
  rfl

theorem calc_other_dept_comp (inp : EmploymentInput) :
    (calculate_compensation inp).other_dept_comp =
      ((calculate_compensation inp).addiction_fte + inp.other_dept_fte) * OTHER_DEPT_RATE *
        (calculate_compensation inp).time_fraction :=
  rfl

theorem calc_addiction_board_bonus (inp : EmploymentInput) :
    (calculate_compensation inp).addiction_board_bonus =
      if inp.addiction_board_certified then
        ADDICTION_BOARD_BONUS * inp.status_fte * (calculate_compensation inp).time_fraction
      else 0 :=
  rfl

theorem calc_total_compensation (inp : EmploymentInput) :
    (calculate_compensation inp).total_compensation =
      (calculate_compensation inp).a_fte_adjusted + (calculate_compensation inp).b_fte_adjusted +
        (calculate_compensation inp).other_dept_comp +
        (calculate_compensation inp).addiction_board_bonus + inp.other_stipend :=
  rfl

theorem calc_other_stipend (inp : EmploymentInput) :
    (calculate_compensation inp).other_stipend = inp.other_stipend :=
  rfl

/-! ## Rounding and sign helpers -/

theorem int_trunc_of_nonneg {q : ℚ} (h : 0 ≤ q) : int_trunc q = ⌊q⌋ := by
  rw [int_trunc, if_pos h]

theorem py_round_spec (q : ℚ) :
    |q - (py_round q : ℚ)| ≤ 1/2 ∧ (|q - (py_round q : ℚ)| = 1/2 → py_round q % 2 = 0) := by
  have h0 : (⌊q⌋ : ℚ) ≤ q := Int.floor_le q
  have h1 : q < ⌊q⌋ + 1 := Int.lt_floor_add_one q
  unfold py_round
  split_ifs with ha hb hc
  · refine ⟨?_, ?_⟩
    · rw [abs_of_nonneg (by linarith)]
      linarith
    · intro habs
      rw [abs_of_nonneg (by linarith)] at habs
      linarith
  · refine ⟨?_, ?_⟩
    · push_cast
      rw [abs_of_nonpos (by linarith)]
      linarith
    · intro habs
      push_cast at habs
      rw [abs_of_nonpos (by linarith)] at habs
      linarith
  · have hq : q - ⌊q⌋ = 1/2 := le_antisymm (not_lt.mp hb) (not_lt.mp ha)
    refine ⟨?_, fun _ => hc⟩
    rw [abs_of_nonneg (by linarith)]
    linarith
  · have hq : q - ⌊q⌋ = 1/2 := le_antisymm (not_lt.mp hb) (not_lt.mp ha)
    refine ⟨?_, ?_⟩
    · push_cast
      rw [abs_of_nonpos (by linarith)]
      linarith
    · intro _
      omega

theorem time_fraction_nonneg (inp : EmploymentInput) :
    0 ≤ (calculate_compensation inp).time_fraction := by
  rw [calc_time_fraction]
  apply div_nonneg
  · exact_mod_cast le_max_left 0 (daysInFY inp.start_date - inp.leave_days)
  · norm_num [TOTAL_FY_DAYS, FISCAL_YEAR_END, FISCAL_YEAR_START]

theorem hospitalist_fte_nonneg (inp : EmploymentInput) :
    0 ≤ (calculate_compensation inp).hospitalist_fte := by
  rw [calc_hospitalist_fte]
  exact le_max_left 0 _

theorem clinical_fte_nonneg (inp : EmploymentInput) :
    0 ≤ (calculate_compensation inp).clinical_fte := by
  rw [calc_clinical_fte]
  exact mul_nonneg (hospitalist_fte_nonneg inp) (time_fraction_nonneg inp)

/-! ## Breakdown dict lemmas -/

theorem dictInsert_of_not_mem {l : List (String × ShiftRow)} {k : String} {v : ShiftRow}
    (h : k ∉ l.map Prod.fst) : dictInsert l k v = l ++ [(k, v)] := by
  induction l with
  | nil => rfl
  | cons p rest ih =>
      obtain ⟨k1, w⟩ := p
      simp only [List.map_cons, List.mem_cons, not_or] at h
      rw [dictInsert, if_neg (fun e => h.1 e.symm), ih h.2]
      rfl

theorem mem_keys_dictInsert {l : List (String × ShiftRow)} {k m : String} {v : ShiftRow}
    (h : m ∈ (dictInsert l k v).map Prod.fst) : m ∈ l.map Prod.fst ∨ m = k := by
  induction l with
  | nil => exact Or.inr (by simpa [dictInsert] using h)
  | cons p rest ih =>
      obtain ⟨k1, w⟩ := p
      by_cases hp : k1 = k
      · rw [dictInsert, if_pos hp] at h
        simp only [List.map_cons, List.mem_cons] at h ⊢
        rcases h with h | h
        · exact Or.inr h
        · exact Or.inl (Or.inr h)
      · rw [dictInsert, if_neg hp] at h
        simp only [List.map_cons, List.mem_cons] at h ⊢
        rcases h with h | h
        · exact Or.inl (Or.inl h)
        · rcases ih h with h2 | h2
          · exact Or.inl (Or.inr h2)
          · exact Or.inr h2

/-! ## Loop lemmas -/

theorem processShift_skip {acc : Accum} {it : String × ℚ}
    (h : it.1 = "Nights" ∨ it.1 = "Addiction") : processShift acc it = acc := by
  rw [processShift, if_pos h]

theorem processShift_none {acc : Accum} {it : String × ℚ}
    (h : getOpt SHIFT_TYPES it.1 = none) : processShift acc it = acc := by
  rw [processShift]
  split_ifs with h1
  · rfl
  · rw [h]

theorem processShift_some {acc : Accum} {it : String × ℚ} {config : ShiftConfig}
    (h1 : ¬(it.1 = "Nights" ∨ it.1 = "Addiction"))
    (h2 : getOpt SHIFT_TYPES it.1 = some config) :
    processShift acc it =
      { breakdown := dictInsert acc.breakdown it.1
          { days := it.2
            shift_eq := it.2 * config.ratio
            sos_value := it.2 * config.ratio * config.sos }
        total_sos_value := acc.total_sos_value + it.2 * config.ratio * config.sos
        total_shift_eq := acc.total_shift_eq + it.2 * config.ratio } := by
  rw [processShift, if_neg h1, h2]

theorem processShift_keys {acc : Accum} {it : String × ℚ} {m : String}
    (h : m ∈ (processShift acc it).breakdown.map Prod.fst) :
    m ∈ acc.breakdown.map Prod.fst ∨ (getOpt SHIFT_TYPES m).isSome := by
  by_cases h1 : it.1 = "Nights" ∨ it.1 = "Addiction"
  · rw [processShift_skip h1] at h
    exact Or.inl h
  · cases hg : getOpt SHIFT_TYPES it.1 with
    | none =>
        rw [processShift_none hg] at h
        exact Or.inl h
    | some config =>
        rw [processShift_some h1 hg] at h
        rcases mem_keys_dictInsert h with h2 | h2
        · exact Or.inl h2
        · subst h2
          rw [hg]
          exact Or.inr rfl

theorem foldl_keys (sd : List (String × ℚ)) :
    ∀ (acc : Accum) (m : String), m ∈ ((sd.foldl processShift acc).breakdown.map Prod.fst) →
      m ∈ acc.breakdown.map Prod.fst ∨ (getOpt SHIFT_TYPES m).isSome := by
  induction sd with
  | nil => exact fun acc m h => Or.inl h
  | cons it rest ih =>
      intro acc m h
      rw [List.foldl_cons] at h
      rcases ih (processShift acc it) m h with h2 | h2
      · exact processShift_keys h2
      · exact Or.inr h2

theorem shiftLoop_keys {sd : List (String × ℚ)} {m : String}
    (h : m ∈ (shiftLoop sd).breakdown.map Prod.fst) : (getOpt SHIFT_TYPES m).isSome := by
  rcases foldl_keys sd ⟨[], 0, 0⟩ m h with h2 | h2
  · simp at h2
  · exact h2

theorem standard_nights_key_not_in_loop (sd : List (String × ℚ)) :
    "Standard Nights (first 21)" ∉ (shiftLoop sd).breakdown.map Prod.fst := by
  intro h
  have h2 := shiftLoop_keys h
  simp [getOpt, SHIFT_TYPES] at h2

theorem premium_nights_key_not_in_loop (sd : List (String × ℚ)) :
    "Premium Nights (after 21)" ∉ (shiftLoop sd).breakdown.map Prod.fst := by
  intro h
  have h2 := shiftLoop_keys h
  simp [getOpt, SHIFT_TYPES] at h2

/-! ## Night step lemmas -/

theorem nightsStep_of_nonpos {nd : ℚ} (acc : Accum) (h : ¬ 0 < nd) :
    nightsStep nd acc = acc := by
  rw [nightsStep, if_neg h]

theorem nightsStep_of_pos {nd : ℚ} {acc : Accum} (h : 0 < nd)
    (h1 : "Standard Nights (first 21)" ∉ acc.breakdown.map Prod.fst)
    (h2 : "Premium Nights (after 21)" ∉ acc.breakdown.map Prod.fst) :
    nightsStep nd acc =
      { breakdown := acc.breakdown ++
          [("Standard Nights (first 21)",
            { days := min nd 21, shift_eq := min nd 21, sos_value := min nd 21 * (3/2) }),
           ("Premium Nights (after 21)",
            { days := max 0 (nd - 21), shift_eq := max 0 (nd - 21),
              sos_value := max 0 (nd - 21) * (7/4) })]
        total_sos_value := acc.total_sos_value + (min nd 21 * (3/2) + max 0 (nd - 21) * (7/4))
        total_shift_eq := acc.total_shift_eq + nd } := by
  have h3 : "Premium Nights (after 21)" ∉
      (acc.breakdown ++ [("Standard Nights (first 21)",
        ({ days := min nd 21, shift_eq := min nd 21,
           sos_value := min nd 21 * (3/2) } : ShiftRow))]).map Prod.fst := by
    simp only [List.map_append, List.mem_append, List.map_cons, List.map_nil,
      List.mem_singleton, not_or]
    exact ⟨h2, by decide⟩
  rw [nightsStep, if_pos h]
  rw [NIGHT_STANDARD_THRESHOLD, NIGHT_STANDARD_SOS, NIGHT_PREMIUM_SOS]
  rw [dictInsert_of_not_mem h1, dictInsert_of_not_mem h3, List.append_assoc]
  rfl

/-! ## Aggregation invariant -/

theorem sumSos_append (l1 l2 : List (String × ShiftRow)) :
    sumSos (l1 ++ l2) = sumSos l1 + sumSos l2 := by
  simp [sumSos]

theorem foldl_sum (sd : List (String × ℚ)) :
    ∀ acc : Accum, (sd.map Prod.fst).Nodup →
      (∀ k, k ∈ sd.map Prod.fst → k ∉ acc.breakdown.map Prod.fst) →
      sumSos ((sd.foldl processShift acc).breakdown) + acc.total_sos_value
        = sumSos acc.breakdown + (sd.foldl processShift acc).total_sos_value := by
  induction sd with
  | nil => intro acc _ _; rw [List.foldl_nil]
  | cons it rest ih =>
      intro acc hnd hdisj
      simp only [List.map_cons, List.nodup_cons] at hnd
      have hrest : ∀ k, k ∈ rest.map Prod.fst → k ∉ acc.breakdown.map Prod.fst :=
        fun k hk => hdisj k (by simp [hk])
      rw [List.foldl_cons]
      by_cases h1 : it.1 = "Nights" ∨ it.1 = "Addiction"
      · rw [processShift_skip h1]
        exact ih acc hnd.2 hrest
      · cases hg : getOpt SHIFT_TYPES it.1 with
        | none =>
            rw [processShift_none hg]
            exact ih acc hnd.2 hrest
        | some config =>
            rw [processShift_some h1 hg]
            have hfresh : it.1 ∉ acc.breakdown.map Prod.fst := hdisj it.1 (by simp)
            have hd2 : ∀ k, k ∈ rest.map Prod.fst →
                k ∉ (acc.breakdown ++
                  [(it.1, ({ days := it.2
                             shift_eq := it.2 * config.ratio
                             sos_value := it.2 * config.ratio * config.sos } : ShiftRow))]).map
                    Prod.fst := by
              intro k hk
              simp only [List.map_append, List.mem_append, List.map_cons, List.map_nil,
                List.mem_singleton, not_or]
              exact ⟨hrest k hk, fun e => hnd.1 (e ▸ hk)⟩
            have hih := ih
              ⟨acc.breakdown ++
                  [(it.1, { days := it.2
                            shift_eq := it.2 * config.ratio
                            sos_value := it.2 * config.ratio * config.sos })],
                acc.total_sos_value + it.2 * config.ratio * config.sos,
                acc.total_shift_eq + it.2 * config.ratio⟩ hnd.2 hd2
            dsimp only at hih
            rw [sumSos_append] at hih
            have hs : sumSos
                [(it.1, ({ days := it.2
                           shift_eq := it.2 * config.ratio
                           sos_value := it.2 * config.ratio * config.sos } : ShiftRow))] =
                it.2 * config.ratio * config.sos := by
              simp [sumSos]
            rw [hs] at hih
            rw [dictInsert_of_not_mem hfresh]
            linarith

/-! ## Claims -/

/-- C2: for every input, the returned `shift_equivalents` equals
`clinical_fte * 183` rounded to an integer, with exact halves rounded up
(away from zero, toward positive infinity): it is `⌊clinical_fte * 183 + 1/2⌋`,
it is within 1/2 of `clinical_fte * 183`, and any value of the form `x.5`
rounds to `x + 1`. -/
theorem spec_C2 (inp : EmploymentInput) :
    (calculate_compensation inp).shift_equivalents =
        ((⌊(calculate_compensation inp).clinical_fte * 183 + 1/2⌋ : ℤ) : ℚ) ∧
      |(calculate_compensation inp).clinical_fte * 183 -
          (calculate_compensation inp).shift_equivalents| ≤ 1/2 ∧
      ∀ x : ℤ, (calculate_compensation inp).clinical_fte * 183 = (x : ℚ) + 1/2 →
        (calculate_compensation inp).shift_equivalents = (x : ℚ) + 1 := by
  have hc : 0 ≤ (calculate_compensation inp).clinical_fte := clinical_fte_nonneg inp
  have hc183 : 0 ≤ (calculate_compensation inp).clinical_fte * 183 :=
    mul_nonneg hc (by norm_num)
  have hfl : (calculate_compensation inp).shift_equivalents =
      ((⌊(calculate_compensation inp).clinical_fte * 183 + 1/2⌋ : ℤ) : ℚ) := by
    rw [calc_shift_equivalents inp]
    rw [show BASE_SHIFT_EQUIVALENTS = (183 : ℚ) from rfl]
    rw [int_trunc_of_nonneg (by linarith)]
  refine ⟨hfl, ?_, ?_⟩
  · rw [hfl]
    have hle : ((⌊(calculate_compensation inp).clinical_fte * 183 + 1/2⌋ : ℤ) : ℚ) ≤
        (calculate_compensation inp).clinical_fte * 183 + 1/2 :=
      Int.floor_le _
    have hgt : (calculate_compensation inp).clinical_fte * 183 + 1/2 <
        ((⌊(calculate_compensation inp).clinical_fte * 183 + 1/2⌋ : ℤ) : ℚ) + 1 :=
      Int.lt_floor_add_one _
    rw [abs_le]
    constructor <;> linarith
  · intro x hx
    rw [hfl, hx]
    have h1 : ((x : ℚ) + 1/2) + 1/2 = ((x + 1 : ℤ) : ℚ) := by
      push_cast
      ring
    rw [h1, Int.floor_intCast]
    push_cast
    ring

/-- C2 witness: at `exInputC2`, `clinical_fte * 183` is exactly 36.5 and the
returned `shift_equivalents` is 37. -/
theorem spec_C2_witness :
    (calculate_compensation exInputC2).clinical_fte * 183 = ((36 : ℤ) : ℚ) + 1/2 ∧
      (calculate_compensation exInputC2).shift_equivalents = ((36 : ℤ) : ℚ) + 1 := by
  have h : (calculate_compensation exInputC2).clinical_fte * 183 = ((36 : ℤ) : ℚ) + 1/2 := by
    rw [calc_clinical_fte, calc_hospitalist_fte, calc_addiction_fte, calc_time_fraction]
    norm_num [exInputC2, dictGetD, getOpt, daysInFY, TOTAL_FY_DAYS, FISCAL_YEAR_START,
      FISCAL_YEAR_END, BASE_SHIFT_EQUIVALENTS, max_def]
  exact ⟨h, (spec_C2 exInputC2).2.2 36 h⟩

/-- C4: the SoS multiplier is guarded: when the rounded shift equivalents are
positive it is `total_sos_value / shift_equivalents`, and when they are zero
it is exactly 1. -/
theorem spec_C4 (inp : EmploymentInput) :
    (0 < (calculate_compensation inp).shift_equivalents →
      (calculate_compensation inp).sos_multiplier =
        (calculate_compensation inp).total_sos_value /
          (calculate_compensation inp).shift_equivalents) ∧
    ((calculate_compensation inp).shift_equivalents = 0 →
      (calculate_compensation inp).sos_multiplier = 1) := by
  constructor
  · intro h
    rw [calc_sos_multiplier, if_pos h]
  · intro h
    rw [calc_sos_multiplier, if_neg (by rw [h]; exact lt_irrefl 0)]

/-- C4 witness: an input with all shift days zero has zero shift equivalents
and SoS multiplier exactly 1 (no division error). -/
theorem spec_C4_witness :
    (calculate_compensation exInputC4).shift_equivalents = 0 ∧
      (calculate_compensation exInputC4).sos_multiplier = 1 := by
  have h : (calculate_compensation exInputC4).shift_equivalents = 0 := by
    rw [calc_shift_equivalents, calc_clinical_fte, calc_hospitalist_fte, calc_addiction_fte,
      calc_time_fraction]
    norm_num [exInputC4, dictGetD, getOpt, daysInFY, TOTAL_FY_DAYS, FISCAL_YEAR_START,
      FISCAL_YEAR_END, BASE_SHIFT_EQUIVALENTS, max_def, int_trunc]
  exact ⟨h, (spec_C4 exInputC4).2 h⟩

/-- C5: `a_component` is the rank-table value with silent default 105000 for
unrecognized ranks, `a_fte_adjusted = a_component * status_fte`, and
`a_fte_adjusted` is independent of start date, leave days and shift days. -/
theorem spec_C5 (inp : EmploymentInput) :
    (calculate_compensation inp).a_component =
        (getOpt A_COMPONENT_BY_RANK inp.academic_rank).getD 105000 ∧
      (getOpt A_COMPONENT_BY_RANK inp.academic_rank = none →
        (calculate_compensation inp).a_component = 105000) ∧
      (calculate_compensation inp).a_fte_adjusted =
        (calculate_compensation inp).a_component * inp.status_fte ∧
      ∀ (d l : ℤ) (s : List (String × ℚ)),
        (calculate_compensation
            { inp with start_date := d, leave_days := l, shift_days := s }).a_fte_adjusted =
          (calculate_compensation inp).a_fte_adjusted := by
  refine ⟨rfl, ?_, rfl, fun d l s => rfl⟩
  intro h
  rw [calc_a_component, h]
  rfl

/-- C5 witness: the rank "Nonexistent Rank" is not in the table and the
A component falls back to 105000. -/
theorem spec_C5_witness :
    getOpt A_COMPONENT_BY_RANK "Nonexistent Rank" = none ∧
      (calculate_compensation exInputC5).a_component = 105000 := by
  have h : getOpt A_COMPONENT_BY_RANK "Nonexistent Rank" = none := by
    simp [getOpt, A_COMPONENT_BY_RANK]
  exact ⟨h, (spec_C5 exInputC5).2.1 h⟩

/-- C6: the FTE decomposition: `addiction_fte` is the addiction day count over
183; `hm_fte` excludes the non-clinical carve-out while the reported
hospitalist FTE includes it; `clinical_fte` is the hospitalist FTE scaled by
the time fraction; and no derived FTE in the result is negative. -/
theorem spec_C6 (inp : EmploymentInput) (h : 0 ≤ dictGetD inp.shift_days "Addiction" 0) :
    (calculate_compensation inp).addiction_fte =
        dictGetD inp.shift_days "Addiction" 0 / 183 ∧
      (calculate_compensation inp).hm_fte =
        max 0 (inp.status_fte - inp.other_dept_fte -
          (calculate_compensation inp).addiction_fte) ∧
      (calculate_compensation inp).hospitalist_fte =
        max 0 (inp.status_fte - inp.non_clinical_fte - inp.other_dept_fte -
          (calculate_compensation inp).addiction_fte) ∧
      (calculate_compensation inp).clinical_fte =
        (calculate_compensation inp).hospitalist_fte *
          (calculate_compensation inp).time_fraction ∧
      0 ≤ (calculate_compensation inp).addiction_fte ∧
      0 ≤ (calculate_compensation inp).hm_fte ∧
      0 ≤ (calculate_compensation inp).hospitalist_fte ∧
      0 ≤ (calculate_compensation inp).clinical_fte := by
  refine ⟨rfl, calc_hm_fte inp, calc_hospitalist_fte inp, calc_clinical_fte inp, ?_, ?_,
    hospitalist_fte_nonneg inp, clinical_fte_nonneg inp⟩
  · rw [calc_addiction_fte]
    exact div_nonneg h (by norm_num [BASE_SHIFT_EQUIVALENTS])
  · rw [calc_hm_fte]
    exact le_max_left 0 _

/-- C6 witness: the decomposition at a concrete input with nine addiction
days. -/
theorem spec_C6_witness :
    0 ≤ dictGetD exInputC6.shift_days "Addiction" 0 ∧
      ((calculate_compensation exInputC6).addiction_fte =
          dictGetD exInputC6.shift_days "Addiction" 0 / 183 ∧
        (calculate_compensation exInputC6).hm_fte =
          max 0 (exInputC6.status_fte - exInputC6.other_dept_fte -
            (calculate_compensation exInputC6).addiction_fte) ∧
        (calculate_compensation exInputC6).hospitalist_fte =
          max 0 (exInputC6.status_fte - exInputC6.non_clinical_fte - exInputC6.other_dept_fte -
            (calculate_compensation exInputC6).addiction_fte) ∧
        (calculate_compensation exInputC6).clinical_fte =
          (calculate_compensation exInputC6).hospitalist_fte *
            (calculate_compensation exInputC6).time_fraction ∧
        0 ≤ (calculate_compensation exInputC6).addiction_fte ∧
        0 ≤ (calculate_compensation exInputC6).hm_fte ∧
        0 ≤ (calculate_compensation exInputC6).hospitalist_fte ∧
        0 ≤ (calculate_compensation exInputC6).clinical_fte) := by
  have h : (0 : ℚ) ≤ dictGetD exInputC6.shift_days "Addiction" 0 := by
    norm_num [exInputC6, dictGetD, getOpt]
  exact ⟨h, spec_C6 exInputC6 h⟩

/-- C7: the time fraction is `max 0 (days_in_fy - leave_days) / total_days`
with `total_days = 365`, where `days_in_fy` is 365 for a start at or before
the fiscal year start, 0 for a start after the fiscal year end, and the
inclusive day count through the fiscal year end otherwise; the time fraction
is never negative. -/
theorem spec_C7 (inp : EmploymentInput) :
    (calculate_compensation inp).time_fraction =
        ((max 0 (daysInFY inp.start_date - inp.leave_days) : ℤ) : ℚ) /
          ((TOTAL_FY_DAYS : ℤ) : ℚ) ∧
      TOTAL_FY_DAYS = 365 ∧
      0 ≤ (calculate_compensation inp).time_fraction ∧
      (inp.start_date ≤ FISCAL_YEAR_START → daysInFY inp.start_date = 365) ∧
      (FISCAL_YEAR_END < inp.start_date → daysInFY inp.start_date = 0) ∧
      (FISCAL_YEAR_START < inp.start_date ∧ inp.start_date ≤ FISCAL_YEAR_END →
        daysInFY inp.start_date = FISCAL_YEAR_END - inp.start_date + 1) := by
  have e0 : FISCAL_YEAR_START = 0 := rfl
  have e1 : FISCAL_YEAR_END = 364 := rfl
  refine ⟨calc_time_fraction inp, by decide, time_fraction_nonneg inp, ?_, ?_, ?_⟩
  · intro h
    rw [daysInFY, if_pos h]
    decide
  · intro h
    rw [daysInFY, if_neg (by omega), if_pos h]
  · intro h
    rw [daysInFY, if_neg (by omega), if_neg (by omega)]

/-- C7 witness: a start date 100 days into the fiscal year falls in the middle
case and yields the inclusive day count 265. -/
theorem spec_C7_witness :
    FISCAL_YEAR_START < exInputC7.start_date ∧
      exInputC7.start_date ≤ FISCAL_YEAR_END ∧
      daysInFY exInputC7.start_date = FISCAL_YEAR_END - exInputC7.start_date + 1 := by
  refine ⟨by decide, by decide, ?_⟩
  exact (spec_C7 exInputC7).2.2.2.2.2 ⟨by decide, by decide⟩

/-- C3: tiered night pay.  With a positive night count the breakdown gains
exactly two night rows — standard (capped at 21, SoS factor 1.5) and premium
(overflow past 21, SoS factor 1.75), each with `shift_eq` equal to its day
count — both SoS values are added to the total, and the full night count is
added to `total_shift_eq`; with a zero night count nothing is added. -/
theorem spec_C3 (inp : EmploymentInput) :
    (0 < dictGetD inp.shift_days "Nights" 0 →
      "Standard Nights (first 21)" ∉ (shiftLoop inp.shift_days).breakdown.map Prod.fst ∧
      "Premium Nights (after 21)" ∉ (shiftLoop inp.shift_days).breakdown.map Prod.fst ∧
      (calculate_compensation inp).shift_breakdown =
        (shiftLoop inp.shift_days).breakdown ++
          [("Standard Nights (first 21)",
            { days := min (dictGetD inp.shift_days "Nights" 0) 21
              shift_eq := min (dictGetD inp.shift_days "Nights" 0) 21
              sos_value := min (dictGetD inp.shift_days "Nights" 0) 21 * (3/2) }),
           ("Premium Nights (after 21)",
            { days := max 0 (dictGetD inp.shift_days "Nights" 0 - 21)
              shift_eq := max 0 (dictGetD inp.shift_days "Nights" 0 - 21)
              sos_value := max 0 (dictGetD inp.shift_days "Nights" 0 - 21) * (7/4) })] ∧
      (calculate_compensation inp).total_sos_value =
        (shiftLoop inp.shift_days).total_sos_value +
          (min (dictGetD inp.shift_days "Nights" 0) 21 * (3/2) +
            max 0 (dictGetD inp.shift_days "Nights" 0 - 21) * (7/4)) ∧
      (nightsStep (dictGetD inp.shift_days "Nights" 0)
          (shiftLoop inp.shift_days)).total_shift_eq =
        (shiftLoop inp.shift_days).total_shift_eq + dictGetD inp.shift_days "Nights" 0) ∧
    (dictGetD inp.shift_days "Nights" 0 = 0 →
      (calculate_compensation inp).shift_breakdown = (shiftLoop inp.shift_days).breakdown ∧
      (calculate_compensation inp).total_sos_value =
        (shiftLoop inp.shift_days).total_sos_value ∧
      (nightsStep (dictGetD inp.shift_days "Nights" 0)
          (shiftLoop inp.shift_days)).total_shift_eq =
        (shiftLoop inp.shift_days).total_shift_eq ∧
      "Standard Nights (first 21)" ∉
        (calculate_compensation inp).shift_breakdown.map Prod.fst ∧
      "Premium Nights (after 21)" ∉
        (calculate_compensation inp).shift_breakdown.map Prod.fst) := by
  constructor
  · intro h
    have h1 := standard_nights_key_not_in_loop inp.shift_days
    have h2 := premium_nights_key_not_in_loop inp.shift_days
    have hstep := nightsStep_of_pos h h1 h2
    refine ⟨h1, h2, ?_, ?_, ?_⟩
    · rw [calc_shift_breakdown, hstep]
    · rw [calc_total_sos_value, hstep]
    · rw [hstep]
  · intro h
    have hnp : ¬ 0 < dictGetD inp.shift_days "Nights" 0 := by
      rw [h]
      exact lt_irrefl 0
    have hstep := nightsStep_of_nonpos (shiftLoop inp.shift_days) hnp
    refine ⟨?_, ?_, ?_, ?_, ?_⟩
    · rw [calc_shift_breakdown, hstep]
    · rw [calc_total_sos_value, hstep]
    · rw [hstep]
    · rw [calc_shift_breakdown, hstep]
      exact standard_nights_key_not_in_loop inp.shift_days
    · rw [calc_shift_breakdown, hstep]
      exact premium_nights_key_not_in_loop inp.shift_days

/-- C3 witness: with 28 nights the positive branch applies (21 standard,
7 premium). -/
theorem spec_C3_witness :
    0 < dictGetD exInputC3.shift_days "Nights" 0 ∧
      ("Standard Nights (first 21)" ∉ (shiftLoop exInputC3.shift_days).breakdown.map Prod.fst ∧
        "Premium Nights (after 21)" ∉ (shiftLoop exInputC3.shift_days).breakdown.map Prod.fst ∧
        (calculate_compensation exInputC3).shift_breakdown =
          (shiftLoop exInputC3.shift_days).breakdown ++
            [("Standard Nights (first 21)",
              { days := min (dictGetD exInputC3.shift_days "Nights" 0) 21
                shift_eq := min (dictGetD exInputC3.shift_days "Nights" 0) 21
                sos_value := min (dictGetD exInputC3.shift_days "Nights" 0) 21 * (3/2) }),
             ("Premium Nights (after 21)",
              { days := max 0 (dictGetD exInputC3.shift_days "Nights" 0 - 21)
                shift_eq := max 0 (dictGetD exInputC3.shift_days "Nights" 0 - 21)
                sos_value := max 0 (dictGetD exInputC3.shift_days "Nights" 0 - 21) * (7/4) })] ∧
        (calculate_compensation exInputC3).total_sos_value =
          (shiftLoop exInputC3.shift_days).total_sos_value +
            (min (dictGetD exInputC3.shift_days "Nights" 0) 21 * (3/2) +
              max 0 (dictGetD exInputC3.shift_days "Nights" 0 - 21) * (7/4)) ∧
        (nightsStep (dictGetD exInputC3.shift_days "Nights" 0)
            (shiftLoop exInputC3.shift_days)).total_shift_eq =
          (shiftLoop exInputC3.shift_days).total_shift_eq +
            dictGetD exInputC3.shift_days "Nights" 0) := by
  have h : (0 : ℚ) < dictGetD exInputC3.shift_days "Nights" 0 := by
    decide
  exact ⟨h, (spec_C3 exInputC3).1 h⟩

/-- C8: the returned `total_sos_value` always reconciles with the returned
breakdown: it equals the sum of the `sos_value` fields over all rows. -/
theorem spec_C8 (inp : EmploymentInput) (h : (inp.shift_days.map Prod.fst).Nodup) :
    sumSos (calculate_compensation inp).shift_breakdown =
      (calculate_compensation inp).total_sos_value := by
  have hL : sumSos (shiftLoop inp.shift_days).breakdown =
      (shiftLoop inp.shift_days).total_sos_value := by
    have h2 := foldl_sum inp.shift_days ⟨[], 0, 0⟩ h (fun k _ hk => by simp at hk)
    dsimp only at h2
    simpa [sumSos, shiftLoop] using h2
  by_cases hn : 0 < dictGetD inp.shift_days "Nights" 0
  · rw [calc_shift_breakdown, calc_total_sos_value,
      nightsStep_of_pos hn (standard_nights_key_not_in_loop inp.shift_days)
        (premium_nights_key_not_in_loop inp.shift_days)]
    rw [sumSos_append, hL]
    simp [sumSos]
  · rw [calc_shift_breakdown, calc_total_sos_value,
      nightsStep_of_nonpos (shiftLoop inp.shift_days) hn]
    exact hL

/-- C8 witness: reconciliation at a concrete mixed schedule with distinct
keys. -/
theorem spec_C8_witness :
    (exInputC8.shift_days.map Prod.fst).Nodup ∧
      sumSos (calculate_compensation exInputC8).shift_breakdown =
        (calculate_compensation exInputC8).total_sos_value := by
  have h : (exInputC8.shift_days.map Prod.fst).Nodup := by
    simp [exInputC8]
  exact ⟨h, spec_C8 exInputC8 h⟩

/-- Scaled specification of `py_round` at the hundreds scale: the result is
within 50 of the input, and a tie (distance exactly 50) lands on an even
multiplier. -/
theorem py_round_100_bound (v : ℚ) :
    |v - (py_round (v / 100) : ℚ) * 100| ≤ 50 ∧
      (|v - (py_round (v / 100) : ℚ) * 100| = 50 → py_round (v / 100) % 2 = 0) := by
  have hs := py_round_spec (v / 100)
  have h100 : (v / 100 - (py_round (v / 100) : ℚ)) * 100 =
      v - (py_round (v / 100) : ℚ) * 100 := by
    rw [sub_mul, div_mul_cancel₀]
    norm_num
  have heq : |v - (py_round (v / 100) : ℚ) * 100| =
      |v / 100 - (py_round (v / 100) : ℚ)| * 100 := by
    rw [← h100, abs_mul]
    norm_num
  constructor
  · rw [heq]
    linarith [hs.1]
  · intro h
    rw [heq] at h
    exact hs.2 (by linarith)

/-- C1 counterexample: at `exInputC1` the raw B value is exactly 2250 and the
code returns 2200 (Python's `round`, half to even), while the claimed
round-half-away-from-zero at the hundreds scale would give 2300. -/
theorem spec_C1_counterexample :
    (calculate_compensation exInputC1).b_fte_adjusted ≠
      round_to_nearest_100
        ((calculate_compensation exInputC1).b_with_experience *
            (calculate_compensation exInputC1).hm_fte -
          105000 * exInputC1.status_fte) := by
  have h1 : (calculate_compensation exInputC1).b_fte_adjusted = 2200 := by
    norm_num [calculate_compensation, exInputC1, daysInFY, dictGetD, getOpt, shiftLoop,
      processShift, nightsStep, int_trunc, py_round, TOTAL_FY_DAYS, FISCAL_YEAR_START,
      FISCAL_YEAR_END, FISCAL_YEAR_START_YEAR, BASE_SHIFT_EQUIVALENTS,
      STRENGTH_OF_SCHEDULE_BASE, EXPERIENCE_ADJUSTMENT_PER_YEAR, A_BASE_FOR_B_CALC,
      OTHER_DEPT_RATE, ADDICTION_BOARD_BONUS, A_COMPONENT_BY_RANK, SHIFT_TYPES,
      NIGHT_STANDARD_THRESHOLD, NIGHT_STANDARD_SOS, NIGHT_PREMIUM_SOS, dictInsert,
      min_def, max_def]
  have h2 : (calculate_compensation exInputC1).b_with_experience *
      (calculate_compensation exInputC1).hm_fte - 105000 * exInputC1.status_fte = 2250 := by
    norm_num [calculate_compensation, exInputC1, daysInFY, dictGetD, getOpt, shiftLoop,
      processShift, nightsStep, int_trunc, py_round, TOTAL_FY_DAYS, FISCAL_YEAR_START,
      FISCAL_YEAR_END, FISCAL_YEAR_START_YEAR, BASE_SHIFT_EQUIVALENTS,
      STRENGTH_OF_SCHEDULE_BASE, EXPERIENCE_ADJUSTMENT_PER_YEAR, A_BASE_FOR_B_CALC,
      OTHER_DEPT_RATE, ADDICTION_BOARD_BONUS, A_COMPONENT_BY_RANK, SHIFT_TYPES,
      NIGHT_STANDARD_THRESHOLD, NIGHT_STANDARD_SOS, NIGHT_PREMIUM_SOS, dictInsert,
      min_def, max_def]
  rw [h1, h2]
  norm_num [round_to_nearest_100, roundHalfAwayFromZero]

/-- C1 amended: `b_fte_adjusted` is `(b_with_experience * hm_fte) -
(105000 * status_fte)` rounded to the nearest multiple of 100, with a
remainder of exactly 50 resolved to the even multiple of 100 (round half to
even, Python's `round`), and the subtracted offset is `105000 * status_fte`
regardless of academic rank. -/
theorem spec_C1_amended (inp : EmploymentInput) :
    (∃ n : ℤ, (calculate_compensation inp).b_fte_adjusted = (n : ℚ) * 100 ∧
        |(calculate_compensation inp).b_with_experience * (calculate_compensation inp).hm_fte -
            105000 * inp.status_fte - (calculate_compensation inp).b_fte_adjusted| ≤ 50 ∧
        (|(calculate_compensation inp).b_with_experience *
              (calculate_compensation inp).hm_fte -
            105000 * inp.status_fte - (calculate_compensation inp).b_fte_adjusted| = 50 →
          n % 2 = 0)) ∧
      ∀ rank2 : String,
        (calculate_compensation { inp with academic_rank := rank2 }).b_fte_adjusted =
          (calculate_compensation inp).b_fte_adjusted := by
  refine ⟨?_, fun rank2 => rfl⟩
  refine ⟨py_round (((calculate_compensation inp).b_with_experience *
      (calculate_compensation inp).hm_fte - 105000 * inp.status_fte) / 100), ?_, ?_, ?_⟩
  · exact calc_b_fte_adjusted inp
  · rw [calc_b_fte_adjusted inp]
    exact (py_round_100_bound _).1
  · intro h
    rw [calc_b_fte_adjusted inp] at h
    exact (py_round_100_bound _).2 h

/-- C1 witness: at `exInputC1` the returned B component is 2200 and the
amended rounding characterisation holds there. -/
theorem spec_C1_witness :
    (calculate_compensation exInputC1).b_fte_adjusted = 2200 ∧
      (∃ n : ℤ, (calculate_compensation exInputC1).b_fte_adjusted = (n : ℚ) * 100 ∧
        |(calculate_compensation exInputC1).b_with_experience *
            (calculate_compensation exInputC1).hm_fte -
            105000 * exInputC1.status_fte -
            (calculate_compensation exInputC1).b_fte_adjusted| ≤ 50 ∧
        (|(calculate_compensation exInputC1).b_with_experience *
              (calculate_compensation exInputC1).hm_fte -
            105000 * exInputC1.status_fte -
            (calculate_compensation exInputC1).b_fte_adjusted| = 50 →
          n % 2 = 0)) := by
  constructor
  · norm_num [calculate_compensation, exInputC1, daysInFY, dictGetD, getOpt, shiftLoop,
      processShift, nightsStep, int_trunc, py_round, TOTAL_FY_DAYS, FISCAL_YEAR_START,
      FISCAL_YEAR_END, FISCAL_YEAR_START_YEAR, BASE_SHIFT_EQUIVALENTS,
      STRENGTH_OF_SCHEDULE_BASE, EXPERIENCE_ADJUSTMENT_PER_YEAR, A_BASE_FOR_B_CALC,
      OTHER_DEPT_RATE, ADDICTION_BOARD_BONUS, A_COMPONENT_BY_RANK, SHIFT_TYPES,
      NIGHT_STANDARD_THRESHOLD, NIGHT_STANDARD_SOS, NIGHT_PREMIUM_SOS, dictInsert,
      min_def, max_def]
  · exact (spec_C1_amended exInputC1).1

/-- C9 counterexample: with `status_fte = 0` but half an FTE in another
department the code pays `other_dept_comp = 120000` and the total is not the
stipend alone, refuting the claim as stated. -/
theorem spec_C9_counterexample :
    exInputC9.status_fte = 0 ∧
      (calculate_compensation exInputC9).other_dept_comp ≠ 0 ∧
      (calculate_compensation exInputC9).total_compensation ≠ exInputC9.other_stipend := by
  have hod : (calculate_compensation exInputC9).other_dept_comp = 120000 := by
    norm_num [calculate_compensation, exInputC9, daysInFY, dictGetD, getOpt, shiftLoop,
      processShift, nightsStep, int_trunc, py_round, TOTAL_FY_DAYS, FISCAL_YEAR_START,
      FISCAL_YEAR_END, FISCAL_YEAR_START_YEAR, BASE_SHIFT_EQUIVALENTS,
      STRENGTH_OF_SCHEDULE_BASE, EXPERIENCE_ADJUSTMENT_PER_YEAR, A_BASE_FOR_B_CALC,
      OTHER_DEPT_RATE, ADDICTION_BOARD_BONUS, A_COMPONENT_BY_RANK, SHIFT_TYPES,
      NIGHT_STANDARD_THRESHOLD, NIGHT_STANDARD_SOS, NIGHT_PREMIUM_SOS, dictInsert,
      min_def, max_def]
  have htot : (calculate_compensation exInputC9).total_compensation = 121000 := by
    norm_num [calculate_compensation, exInputC9, daysInFY, dictGetD, getOpt, shiftLoop,
      processShift, nightsStep, int_trunc, py_round, TOTAL_FY_DAYS, FISCAL_YEAR_START,
      FISCAL_YEAR_END, FISCAL_YEAR_START_YEAR, BASE_SHIFT_EQUIVALENTS,
      STRENGTH_OF_SCHEDULE_BASE, EXPERIENCE_ADJUSTMENT_PER_YEAR, A_BASE_FOR_B_CALC,
      OTHER_DEPT_RATE, ADDICTION_BOARD_BONUS, A_COMPONENT_BY_RANK, SHIFT_TYPES,
      NIGHT_STANDARD_THRESHOLD, NIGHT_STANDARD_SOS, NIGHT_PREMIUM_SOS, dictInsert,
      min_def, max_def]
  refine ⟨rfl, ?_, ?_⟩
  · rw [hod]
    norm_num
  · rw [htot]
    norm_num [exInputC9]

/-- C9 amended: with `status_fte = 0`, no other-department FTE and no
addiction days, the A, B, other-department and bonus components are all zero
(`hm_fte` clamps to zero) and the total equals the stipend alone. -/
theorem spec_C9_amended (inp : EmploymentInput) (h1 : inp.status_fte = 0)
    (h2 : inp.other_dept_fte = 0) (h3 : dictGetD inp.shift_days "Addiction" 0 = 0) :
    (calculate_compensation inp).a_fte_adjusted = 0 ∧
      (calculate_compensation inp).hm_fte = 0 ∧
      (calculate_compensation inp).b_fte_adjusted = 0 ∧
      (calculate_compensation inp).other_dept_comp = 0 ∧
      (calculate_compensation inp).addiction_board_bonus = 0 ∧
      (calculate_compensation inp).total_compensation = inp.other_stipend := by
  have haf : (calculate_compensation inp).addiction_fte = 0 := by
    rw [calc_addiction_fte, h3]
    norm_num
  have ha : (calculate_compensation inp).a_fte_adjusted = 0 := by
    rw [calc_a_fte_adjusted, h1, mul_zero]
  have hhm : (calculate_compensation inp).hm_fte = 0 := by
    rw [calc_hm_fte, haf, h1, h2]
    norm_num
  have hb : (calculate_compensation inp).b_fte_adjusted = 0 := by
    rw [calc_b_fte_adjusted, hhm, h1]
    norm_num [py_round]
  have hod : (calculate_compensation inp).other_dept_comp = 0 := by
    rw [calc_other_dept_comp, haf, h2]
    ring
  have hbb : (calculate_compensation inp).addiction_board_bonus = 0 := by
    rw [calc_addiction_board_bonus, h1]
    split_ifs <;> ring
  refine ⟨ha, hhm, hb, hod, hbb, ?_⟩
  rw [calc_total_compensation, ha, hb, hod, hbb]
  ring

/-- C9 witness: the amended zero-status conclusion at a concrete input with
zero status FTE, zero other-department FTE and no addiction days. -/
theorem spec_C9_witness :
    exInputC9b.status_fte = 0 ∧ exInputC9b.other_dept_fte = 0 ∧
      dictGetD exInputC9b.shift_days "Addiction" 0 = 0 ∧
      ((calculate_compensation exInputC9b).a_fte_adjusted = 0 ∧
        (calculate_compensation exInputC9b).hm_fte = 0 ∧
        (calculate_compensation exInputC9b).b_fte_adjusted = 0 ∧
        (calculate_compensation exInputC9b).other_dept_comp = 0 ∧
        (calculate_compensation exInputC9b).addiction_board_bonus = 0 ∧
        (calculate_compensation exInputC9b).total_compensation = exInputC9b.other_stipend) := by
  have h3 : dictGetD exInputC9b.shift_days "Addiction" 0 = 0 := by
    decide
  exact ⟨rfl, rfl, h3, spec_C9_amended exInputC9b rfl rfl h3⟩

/-- Skipping an extra key in the first-match lookup. -/
theorem getOpt_append_cons {α : Type} (pre post : List (String × α)) (k m : String) (v : α)
    (h : k ≠ m) : getOpt (pre ++ (k, v) :: post) m = getOpt (pre ++ post) m := by
  induction pre with
  | nil => simp [getOpt, h]
  | cons p rest ih =>
      obtain ⟨k1, w⟩ := p
      by_cases hk : k1 = m
      · simp [getOpt, hk]
      · simp [getOpt, hk, ih]

/-- The Step 3 loop ignores an item whose key is not in the catalog. -/
theorem foldl_skip_extra (pre post : List (String × ℚ)) (k : String) (d : ℚ) (acc : Accum)
    (h1 : getOpt SHIFT_TYPES k = none) :
    (pre ++ (k, d) :: post).foldl processShift acc =
      (pre ++ post).foldl processShift acc := by
  rw [List.foldl_append, List.foldl_cons, List.foldl_append, processShift_none h1]

/-- C10: adding an extra `shift_days` entry whose key is not in the shift-type
catalog and is neither "Nights" nor "Addiction" leaves the entire result
unchanged, whatever its day count. -/
theorem spec_C10 (inp : EmploymentInput) (pre post : List (String × ℚ)) (k : String) (d : ℚ)
    (h1 : getOpt SHIFT_TYPES k = none) (h2 : k ≠ "Nights") (h3 : k ≠ "Addiction") :
    calculate_compensation { inp with shift_days := pre ++ (k, d) :: post } =
      calculate_compensation { inp with shift_days := pre ++ post } := by
  have hA : dictGetD (pre ++ (k, d) :: post) "Addiction" 0 =
      dictGetD (pre ++ post) "Addiction" 0 := by
    rw [dictGetD, dictGetD, getOpt_append_cons pre post k "Addiction" d h3]
  have hN : dictGetD (pre ++ (k, d) :: post) "Nights" 0 =
      dictGetD (pre ++ post) "Nights" 0 := by
    rw [dictGetD, dictGetD, getOpt_append_cons pre post k "Nights" d h2]
  have hL : shiftLoop (pre ++ (k, d) :: post) = shiftLoop (pre ++ post) := by
    rw [shiftLoop, shiftLoop, foldl_skip_extra pre post k d ⟨[], 0, 0⟩ h1]
  simp only [calculate_compensation, hA, hN, hL]

/-- C10 witness: inserting the unrecognized key "Bogus Shift" with five days
between two recognized entries leaves the whole result unchanged. -/
theorem spec_C10_witness :
    calculate_compensation
        { exInputC10 with
          shift_days := [("Teaching", 70)] ++ ("Bogus Shift", 5) :: [("Nights", 28)] } =
      calculate_compensation { exInputC10 with shift_days := [("Teaching", 70)] ++ [("Nights", 28)] } :=
  spec_C10 exInputC10 [("Teaching", 70)] [("Nights", 28)] "Bogus Shift" 5 (by decide)
    (by decide) (by decide)

end HospitalistCalc
